import Mathlib

/-!
Verification development for the health-ai-bot repository.

The repository is a Python WhatsApp health-assistant bot.  Its core is a
deterministic rule pipeline (`src/health_ai.py`, class `HealthAI`) that turns a
free-text message into a `SymptomAnalysis` record, plus a routing layer
(`src/gemini_ai.py`, class `EnhancedAI`) and a message handler
(`src/whatsapp_bot.py`, class `WhatsAppBot`).

This file shallowly embeds those modules: text is `String`, Python's substring
test `needle in hay` is `pyIn`, Python floats in the confidence computation are
modelled as rationals, the fallible Gemini delegate is a function returning
`Except`.  Definitions follow the Python source line by line; definitions whose
names start with `spec` instead follow the wording of the natural-language
specification, and refinement theorems compare the two.
-/

/-! ## Python string primitives -/

/-- Does `needle` occur at the head of `hay` (character-exact)? -/
def chStartsWith : List Char → List Char → Bool
  | [], _ => true
  | _ :: _, [] => false
  | a :: as, b :: bs => a == b && chStartsWith as bs

/-- Does `needle` occur contiguously anywhere in `hay` (character-exact)? -/
def chContains (needle : List Char) : List Char → Bool
  | [] => needle.isEmpty
  | b :: rest => chStartsWith needle (b :: rest) || chContains needle rest

/-- Python's `needle in hay` on strings: contiguous-substring test. -/
def pyIn (needle hay : String) : Bool :=
  chContains needle.toList hay.toList

/-- Python's `str.lower()` (ASCII range, which covers the knowledge base). -/
def pyLower (s : String) : String :=
  ⟨s.toList.map Char.toLower⟩

/-- The whitespace characters stripped by Python's `str.strip()` / `str.split()`. -/
def isPySpace (c : Char) : Bool :=
  c == ' ' || c == '\t' || c == '\n' || c == '\r' || c == '\x0b' || c == '\x0c'

/-- Python's `str.strip()`: drop whitespace from both ends. -/
def pyStrip (s : String) : String :=
  ⟨((s.toList.dropWhile isPySpace).reverse.dropWhile isPySpace).reverse⟩

/-- `message.lower().strip()`, the normalization both `HealthAI.analyze_message`
and `WhatsAppBot._handle_message` apply to incoming text. -/
def pyNormalize (s : String) : String :=
  pyStrip (pyLower s)

def pySplitAux : List Char → List Char → List (List Char)
  | [], cur => if cur.isEmpty then [] else [cur.reverse]
  | c :: rest, cur =>
    if isPySpace c then
      if cur.isEmpty then pySplitAux rest [] else cur.reverse :: pySplitAux rest []
    else
      pySplitAux rest (c :: cur)

/-- Python's `str.split()` with no argument: split on whitespace runs,
dropping empty tokens. -/
def pySplit (s : String) : List String :=
  (pySplitAux s.toList []).map fun l => ⟨l⟩

def pyTitleAux : List Char → Bool → List Char
  | [], _ => []
  | c :: rest, prevAlpha =>
    (if c.isAlpha then (if prevAlpha then c.toLower else c.toUpper) else c)
      :: pyTitleAux rest c.isAlpha

/-- Python's `str.title()` (letters model the cased characters, which covers
the knowledge-base condition names). -/
def pyTitle (s : String) : String :=
  ⟨pyTitleAux s.toList false⟩

/-- `name.replace('_', ' ')` for the single-character pattern used by the code. -/
def pyReplaceUnderscore (s : String) : String :=
  ⟨s.toList.map fun c => if c == '_' then ' ' else c⟩

/-- Python's `list(set(xs))`.  CPython returns the elements in an unspecified
order; the spec (§9) records this non-determinism and asks consumers to treat
the result as a set.  We model it with Mathlib's order-preserving `List.dedup`,
one admissible refinement of the set semantics. -/
def pyListSet (xs : List String) : List String :=
  xs.dedup

/-- Python's two-argument `min` (returns the first argument when equal). -/
def pyMin (a b : ℚ) : ℚ :=
  if a ≤ b then a else b

/-! ## Knowledge base (`HealthAI._load_symptom_keywords`,
`HealthAI._load_medical_knowledge`, `HealthAI.__init__`) -/

/-- One entry of the `symptom_keywords` dict: a category with its keyword list
and its mild/moderate/severe severity-indicator phrase lists. -/
structure SymptomCategory where
  name : String
  keywords : List String
  mild : List String
  moderate : List String
  severe : List String
deriving DecidableEq

/-- `HealthAI._load_symptom_keywords`, in dict insertion order. -/
def symptom_keywords : List SymptomCategory :=
  [ { name := "pain"
    , keywords := ["pain", "ache", "hurt", "sore", "tender", "throbbing", "stabbing"]
    , mild := ["slight", "minor", "little"]
    , moderate := ["moderate", "noticeable"]
    , severe := ["severe", "intense", "unbearable", "excruciating"] }
  , { name := "fever"
    , keywords := ["fever", "temperature", "hot", "chills", "sweating"]
    , mild := ["low grade", "slight fever"]
    , moderate := ["fever", "high temperature"]
    , severe := ["high fever", "burning up"] }
  , { name := "respiratory"
    , keywords := ["cough", "breathing", "shortness of breath", "wheezing", "congestion"]
    , mild := ["slight cough", "light congestion"]
    , moderate := ["persistent cough", "difficulty breathing"]
    , severe := ["severe breathing problems", "can\x27t breathe"] }
  , { name := "digestive"
    , keywords := ["nausea", "vomiting", "diarrhea", "stomach pain", "constipation"]
    , mild := ["slight nausea", "mild stomach upset"]
    , moderate := ["vomiting", "stomach pain"]
    , severe := ["severe vomiting", "intense stomach pain"] }
  , { name := "neurological"
    , keywords := ["headache", "dizziness", "confusion", "memory problems"]
    , mild := ["mild headache", "slight dizziness"]
    , moderate := ["headache", "dizzy"]
    , severe := ["severe headache", "extreme dizziness", "confusion"] } ]

/-- One entry of `medical_knowledge['common_conditions']`. -/
structure HealthCondition where
  name : String
  symptoms : List String
  recommendations : List String
deriving DecidableEq

/-- `medical_knowledge['common_conditions']`, in dict insertion order. -/
def common_conditions : List HealthCondition :=
  [ { name := "cold"
    , symptoms := ["runny nose", "sneezing", "mild cough", "sore throat"]
    , recommendations :=
        [ "Get plenty of rest"
        , "Drink fluids"
        , "Consider over-the-counter medications"
        , "Monitor symptoms for 7-10 days" ] }
  , { name := "flu"
    , symptoms := ["fever", "body aches", "fatigue", "cough"]
    , recommendations :=
        [ "Rest and isolation"
        , "Increase fluid intake"
        , "Consider antiviral medication if within 48 hours"
        , "Seek medical care if symptoms worsen" ] }
  , { name := "headache"
    , symptoms := ["head pain", "pressure", "tension"]
    , recommendations :=
        [ "Rest in a quiet, dark room"
        , "Apply cold or warm compress"
        , "Stay hydrated"
        , "Consider over-the-counter pain relievers" ] }
  , { name := "stomach_bug"
    , symptoms := ["nausea", "vomiting", "diarrhea", "stomach cramps"]
    , recommendations :=
        [ "Stay hydrated with clear fluids"
        , "BRAT diet (bananas, rice, applesauce, toast)"
        , "Rest"
        , "Avoid dairy and fatty foods" ] } ]

/-- `medical_knowledge['general_advice']`. -/
def general_advice : List String :=
  [ "This is not a substitute for professional medical advice"
  , "Consult a healthcare provider for persistent or severe symptoms"
  , "Call emergency services for life-threatening situations"
  , "Keep track of your symptoms and their progression" ]

/-- `HealthAI.emergency_keywords` (set in `__init__`). -/
def emergency_keywords : List String :=
  [ "chest pain", "heart attack", "stroke", "seizure", "unconscious"
  , "difficulty breathing", "severe bleeding", "poisoning", "overdose"
  , "severe allergic reaction", "broken bone", "head injury" ]

/-- All symptom keywords flattened in category-then-keyword iteration order. -/
def allKeywords : List String :=
  symptom_keywords.flatMap fun c => c.keywords

/-! ## Pattern matching (`HealthAI._extract_symptoms`, `symptom_patterns`)

The five Python regexes are executed with `re.findall(pattern, message,
re.IGNORECASE)`.  We model each one directly over `List Char`:
literal parts match case-insensitively, `.` matches any character except a
newline, `(.*?)` is non-greedy, `$` matches at the end of the string or just
before a final newline (Python semantics without `re.MULTILINE`), and the
scan restarts after the end of each non-overlapping match. -/

/-- Case-insensitive "literal occurs at head" test (`re.IGNORECASE`). -/
def ciStartsWith : List Char → List Char → Bool
  | [], _ => true
  | _ :: _, [] => false
  | a :: as, b :: bs => a.toLower == b.toLower && ciStartsWith as bs

/-- Match `(.*?)(?:\.|$)`, non-greedily, against `s`: try terminators at each
position (a literal dot first, then `$`), consuming only non-newline capture
characters.  Returns the capture and the rest of the input after the match,
or `none` when an interior newline blocks every terminator. -/
def capToDot : List Char → Option (List Char × List Char)
  | [] => some ([], [])
  | c :: rest =>
    if c == '.' then some ([], rest)
    else if c == '\n' then
      if rest.isEmpty then some ([], [c]) else none
    else (capToDot rest).map fun p => (c :: p.1, p.2)

/-- `re.findall` for the shape `lit(.*?)(?:\.|$)` (patterns `i have X`,
`experiencing X`, `feeling X`).  `fuel` bounds the scan; callers pass
`length + 1`, which is always sufficient since every step consumes input. -/
def findLitCap (lit : List Char) : Nat → List Char → List (List Char)
  | 0, _ => []
  | _, [] => []
  | fuel + 1, s@(_ :: rest) =>
    if ciStartsWith lit s then
      match capToDot (s.drop lit.length) with
      | some (cap, rem) => cap :: findLitCap lit fuel rem
      | none => findLitCap lit fuel rest
    else findLitCap lit fuel rest

/-- Match `(.*?) hurts?` non-greedily: scan for the literal `" hurt"`,
consuming only non-newline capture characters, then consume an optional
trailing `s`. -/
def capToHurt : List Char → Option (List Char × List Char)
  | [] => none
  | c :: rest =>
    if ciStartsWith " hurt".toList (c :: rest) then
      let r := (c :: rest).drop 5
      some ([], if r.head? == some 's' || r.head? == some 'S' then r.tail else r)
    else if c == '\n' then none
    else (capToHurt rest).map fun p => (c :: p.1, p.2)

/-- `re.findall` for `my (.*?) hurts?`. -/
def findMyHurts : Nat → List Char → List (List Char)
  | 0, _ => []
  | _, [] => []
  | fuel + 1, s@(_ :: rest) =>
    if ciStartsWith "my ".toList s then
      match capToHurt (s.drop 3) with
      | some (cap, rem) => cap :: findMyHurts fuel rem
      | none => findMyHurts fuel rest
    else findMyHurts fuel rest

/-- Match `(.*?) is bothering me` from the current scan position: find the
first occurrence of the literal; the capture restarts after any newline
(starts before a newline cannot reach the literal, so the leftmost successful
start is just after the last newline preceding it).  The boolean records that
a restart happened, so outer characters are not prepended. -/
def capBother : List Char → Option (Bool × List Char × List Char)
  | [] => none
  | c :: rest =>
    if ciStartsWith " is bothering me".toList (c :: rest) then
      some (false, [], (c :: rest).drop 16)
    else if c == '\n' then
      (capBother rest).map fun p => (true, p.2.1, p.2.2)
    else
      (capBother rest).map fun p => (p.1, if p.1 then p.2.1 else c :: p.2.1, p.2.2)

/-- `re.findall` for `(.*?) is bothering me`. -/
def findBothering : Nat → List Char → List (List Char)
  | 0, _ => []
  | _, [] => []
  | fuel + 1, s@(_ :: _) =>
    match capBother s with
    | some (_, cap, rem) => cap :: findBothering fuel rem
    | none => []

/-- All captures of the five `symptom_patterns`, in pattern order — the
sequence the inner `for match in matches` loops of `_extract_symptoms`
iterate over. -/
def patternCaptures (message : String) : List String :=
  let m := message.toList
  let fuel := m.length + 1
  (findLitCap "i have ".toList fuel m
    ++ findLitCap "experiencing ".toList fuel m
    ++ findLitCap "feeling ".toList fuel m
    ++ findMyHurts fuel m
    ++ findBothering fuel m).map fun l => ⟨l⟩

/-! ## `HealthAI` methods -/

/-- `SymptomAnalysis` dataclass (`health_ai.py`).  `confidence` is a Python
float computed from decimal literals; we model it as a rational. -/
structure SymptomAnalysis where
  symptoms : List String
  severity : String
  urgency : String
  confidence : ℚ
  recommendations : List String
  potential_conditions : List String
  is_emergency : Bool := false
  response : String := ""
deriving DecidableEq

/-- `HealthAI._is_emergency`. -/
def _is_emergency (message : String) : Bool :=
  emergency_keywords.any fun keyword => pyIn keyword message

/-- `HealthAI._create_emergency_response`. -/
def _create_emergency_response : SymptomAnalysis :=
  { symptoms := ["emergency situation detected"]
  , severity := "severe"
  , urgency := "emergency"
  , confidence := 9 / 10
  , recommendations :=
      [ "🚨 EMERGENCY: Call emergency services immediately (911)"
      , "If possible, go to the nearest emergency room"
      , "Do not drive yourself if experiencing severe symptoms"
      , "Stay calm and follow emergency operator instructions" ]
  , potential_conditions := ["medical emergency"] }

/-- Keyword pass of `_extract_symptoms`: the two nested `for` loops appending
every knowledge-base keyword that occurs in the message. -/
def keywordPass (message : String) : List String :=
  symptom_keywords.foldl
    (fun acc cat =>
      cat.keywords.foldl
        (fun a k => if pyIn k message then a ++ [k] else a) acc)
    []

/-- Pattern pass of `_extract_symptoms`: for each capture, strip it, and
append it when it is longer than 2 characters and not already present. -/
def addCaptures (symptoms : List String) (caps : List String) : List String :=
  caps.foldl
    (fun acc c =>
      let clean := pyStrip c
      if 2 < clean.length ∧ clean ∉ acc then acc ++ [clean] else acc)
    symptoms

/-- `HealthAI._extract_symptoms`: keyword pass, then pattern pass, truncated
to the first 10 entries. -/
def _extract_symptoms (message : String) : List String :=
  (addCaptures (keywordPass message) (patternCaptures message)).take 10

/-- One severity-indicator scan of `_assess_severity`: fold the indicator
phrases of one level, adding weight `w` for each phrase occurring in the
message. -/
def addIndicators (message : String) (acc : Nat) (indicators : List String) (w : Nat) : Nat :=
  indicators.foldl (fun a i => if pyIn i message then a + w else a) acc

/-- The accumulated indicator score of `_assess_severity` (the triple loop
over categories, severity levels and indicator phrases, with weights
mild=1, moderate=3, severe=5). -/
def severityIndicatorScore (message : String) : Nat :=
  symptom_keywords.foldl
    (fun acc cat =>
      addIndicators message
        (addIndicators message (addIndicators message acc cat.mild 1) cat.moderate 3)
        cat.severe 5)
    0

/-- `HealthAI._assess_severity`. -/
def _assess_severity (message : String) (symptoms : List String) : String :=
  let severity_score := severityIndicatorScore message + symptoms.length
  if 8 ≤ severity_score then "severe"
  else if 4 ≤ severity_score then "moderate"
  else "mild"

/-- `HealthAI._assess_urgency` (the `symptoms` parameter is accepted but
never read, as in the source). -/
def _assess_urgency (severity : String) (_symptoms : List String) : String :=
  if severity = "severe" then "high"
  else if severity = "moderate" then "medium"
  else "low"

/-- `HealthAI._generate_recommendations`. -/
def _generate_recommendations (symptoms : List String) (severity : String) : List String :=
  let recommendations : List String :=
    if severity = "severe" then
      [ "Seek immediate medical attention"
      , "Consider visiting an urgent care center or emergency room"
      , "Monitor symptoms closely" ]
    else if severity = "moderate" then
      [ "Consider consulting with a healthcare provider"
      , "Monitor symptoms for changes"
      , "Rest and self-care measures may help" ]
    else
      [ "Try home remedies and self-care"
      , "Monitor symptoms for any worsening"
      , "Consider over-the-counter treatments if appropriate" ]
  let recommendations := symptoms.foldl
    (fun acc symptom =>
      if pyIn "fever" symptom then acc ++ ["Stay hydrated and consider fever reducers"]
      else if pyIn "pain" symptom then acc ++ ["Apply appropriate hot/cold therapy"]
      else if pyIn "cough" symptom then acc ++ ["Try throat lozenges or warm liquids"]
      else acc)
    recommendations
  pyListSet (recommendations ++ general_advice)

/-- The nested pair-counting loop of `_identify_conditions`: for each
defining phrase of the condition and each user symptom, count the pair when
the phrase is a substring of the symptom (case-insensitively). -/
def matchCount (condSymptoms userSymptoms : List String) : Nat :=
  condSymptoms.foldl
    (fun acc cs =>
      acc + (userSymptoms.filter fun us => pyIn (pyLower cs) (pyLower us)).length)
    0

/-- `HealthAI._identify_conditions`. -/
def _identify_conditions (symptoms : List String) : List String :=
  common_conditions.foldl
    (fun acc c =>
      if 2 ≤ matchCount c.symptoms symptoms then
        acc ++ [pyTitle (pyReplaceUnderscore c.name)]
      else acc)
    []

/-- `HealthAI._calculate_confidence` (floats modelled as rationals). -/
def _calculate_confidence (symptoms : List String) (message : String) : ℚ :=
  let base_confidence : ℚ := 6 / 10
  let symptom_bonus : ℚ := pyMin ((symptoms.length : ℚ) * (1 / 10)) (3 / 10)
  let message_length_bonus : ℚ := pyMin (((pySplit message).length : ℚ) * (1 / 100)) (1 / 10)
  pyMin (base_confidence + symptom_bonus + message_length_bonus) (95 / 100)

/-- `HealthAI.analyze_message`. -/
def analyze_message (message : String) : SymptomAnalysis :=
  let m := pyNormalize message
  if _is_emergency m then _create_emergency_response
  else
    let symptoms := _extract_symptoms m
    let severity := _assess_severity m symptoms
    let urgency := _assess_urgency severity symptoms
    let recommendations := _generate_recommendations symptoms severity
    let potential_conditions := _identify_conditions symptoms
    let confidence := _calculate_confidence symptoms m
    { symptoms := symptoms
    , severity := severity
    , urgency := urgency
    , confidence := confidence
    , recommendations := recommendations
    , potential_conditions := potential_conditions }

/-- `HealthAI.get_health_tips`. -/
def get_health_tips : List String :=
  [ "💧 Stay hydrated - drink 8 glasses of water daily"
  , "🏃‍♂️ Get regular exercise - at least 30 minutes daily"
  , "😴 Maintain good sleep hygiene - 7-9 hours per night"
  , "🥗 Eat a balanced diet with plenty of fruits and vegetables"
  , "🧼 Wash your hands regularly to prevent infections"
  , "😌 Manage stress through relaxation techniques"
  , "🩺 Schedule regular check-ups with your healthcare provider" ]

/-! ## `EnhancedAI` (`gemini_ai.py`) -/

/-- `health_keywords` of `EnhancedAI.is_health_related`. -/
def health_keywords : List String :=
  [ "pain", "hurt", "ache", "fever", "sick", "ill", "nausea", "vomit"
  , "headache", "stomach", "cough", "cold", "flu", "dizzy", "tired"
  , "fatigue", "symptom", "doctor", "medicine", "treatment", "health"
  , "medical", "hospital", "injury", "wound", "bleeding", "infection"
  , "allergy", "rash", "breathing", "chest", "heart", "temperature"
  , "swollen", "sore", "cramp", "sprain", "broken", "burn", "cut" ]

/-- `health_patterns` of `EnhancedAI.is_health_related`. -/
def health_patterns : List String :=
  [ "i feel", "i have", "my body", "experiencing", "suffering from"
  , "what should i do for", "how to treat", "is it normal"
  , "should i see a doctor", "medical advice" ]

/-- `EnhancedAI.is_health_related`: substring match of any health keyword or
health phrase pattern against the lowercased message (the early-return loops
collapse to `any`). -/
def is_health_related (message : String) : Bool :=
  let message_lower := pyLower message
  health_keywords.any (fun keyword => pyIn keyword message_lower)
    || health_patterns.any (fun pattern => pyIn pattern message_lower)

/-- The two branches of `EnhancedAI.analyze_message`. -/
inductive AIRoute where
  | health
  | general
deriving DecidableEq

/-- The routing decision of `EnhancedAI.analyze_message`: health-related
messages go to `_handle_health_question` (the triage core), everything else
to `_handle_general_question`. -/
def routeOf (message : String) : AIRoute :=
  if is_health_related message then AIRoute.health else AIRoute.general

/-- The prompt f-string built by `_handle_general_question` around the user
message before calling the Gemini delegate. -/
def mkGeminiPrompt (message : String) : String :=
  "You are a helpful AI assistant responding to a WhatsApp message. \n            Keep your response concise (under 300 words), friendly, and helpful.\n            \n            User\x27s message: "
    ++ message
    ++ "\n            \n            Provide a helpful response. If it\x27s a question, answer it clearly. \n            If it\x27s a request for advice, provide practical suggestions.\n            Use emojis sparingly but appropriately to make it friendly for messaging."

/-- `EnhancedAI._get_fallback_general_response`. -/
def _get_fallback_general_response (user_name : String) : String :=
  "Hi " ++ user_name
    ++ "! I\x27m currently optimized for health and medical questions.\n        \nðŸ¥ I can help you with:\nâ€¢ Symptom analysis\nâ€¢ Health recommendations  \nâ€¢ Medical advice and guidance\nâ€¢ Emergency situation assessment\n\nðŸ’¡ Try asking me about any health concerns you might have!\n\nâš ï¸ For other topics, I\x27m still learning. My AI capabilities are expanding soon!"

/-- The note `_handle_general_question` appends after a successful Gemini
reply. -/
def geminiHealthNote : String :=
  "\n\nðŸ¥ Need health advice? I can also analyze symptoms and provide medical guidance!"

/-- `EnhancedAI._handle_general_question`.  The Gemini collaborator
(`self.gemini_model.generate_content`) is modelled as a function `generate`
that either returns the reply text or fails with an exception value; the
Python `try/except` around the call becomes the `match` on `Except`. -/
def _handle_general_question (gemini_available : Bool)
    (generate : String → Except String String)
    (message user_name : String) : String :=
  if !gemini_available then _get_fallback_general_response user_name
  else
    match generate (mkGeminiPrompt message) with
    | Except.ok text => "Hi " ++ user_name ++ "! " ++ text ++ geminiHealthNote
    | Except.error _ => _get_fallback_general_response user_name

/-! ## `WhatsAppBot` (`whatsapp_bot.py`) -/

/-- The five branches of `WhatsAppBot._handle_message`, in source order. -/
inductive HandlerAction where
  | welcome
  | helpMenu
  | healthTips
  | emergencyInfo
  | aiAnalysis
deriving DecidableEq

/-- The greeting words checked first by `_handle_message`. -/
def greeting_words : List String := ["hi", "hello", "hey", "start"]

/-- The help words checked second by `_handle_message`. -/
def help_words : List String := ["help", "menu", "options"]

/-- The emergency words checked fourth by `_handle_message`. -/
def emergency_words : List String := ["emergency", "911", "urgent"]

/-- The branch `WhatsAppBot._handle_message` selects for a message: the
cascade of substring checks over `message.lower().strip()`, in source order
(greetings, help, tips/advice, emergency words, default AI analysis). -/
def handleAction (message : String) : HandlerAction :=
  let message_lower := pyNormalize message
  if greeting_words.any (fun greeting => pyIn greeting message_lower) then
    HandlerAction.welcome
  else if help_words.any (fun help_word => pyIn help_word message_lower) then
    HandlerAction.helpMenu
  else if pyIn "tips" message_lower || pyIn "advice" message_lower then
    HandlerAction.healthTips
  else if emergency_words.any (fun em => pyIn em message_lower) then
    HandlerAction.emergencyInfo
  else
    HandlerAction.aiAnalysis

/-- `WhatsAppBot._get_welcome_message`. -/
def _get_welcome_message : String :=
  "👋 Welcome to your AI Assistant!\n\nI\x27m here to help you with:\n🩺 Health questions and symptom analysis\n🤖 General questions and advice\n💡 Tips and guidance on any topic\n\n🔹 Ask me about your health concerns\n🔹 Ask me general questions (weather, advice, etc.)\n🔹 Type \x27help\x27 for more options\n\n⚠️ IMPORTANT: For medical emergencies, call 911 immediately.\n\nHow can I help you today?"

/-- `WhatsAppBot._get_help_message`. -/
def _get_help_message : String :=
  "🆘 How I can help you:\n\n1. 🩺 **Health & Medical Questions**\n   Describe your symptoms for personalized health guidance\n\n2. 🤖 **General AI Assistant**\n   Ask me anything! I can help with advice, questions, explanations, and more\n\n3. 💡 **Health Tips**\n   Type \x27tips\x27 for general health advice\n\n4. 🚨 **Emergencies**\n   For medical emergencies, call 911 immediately\n\n**Example messages:**\n• \"I have a headache and feel nauseous\"\n• \"What\x27s the weather like today?\"\n• \"Tell me a joke\"\n• \"How do I cook pasta?\"\n• \"Give me some health tips\"\n\nI\x27m powered by advanced AI and can help with both medical and general questions!"

/-- `WhatsAppBot._get_health_tips` (wraps the joined tip list). -/
def _get_health_tips_message : String :=
  "💡 Daily Health Tips:\n\n"
    ++ String.intercalate "\n" get_health_tips
    ++ "\n\nRemember: Small daily habits make a big difference in your overall health! \n\nNeed help with specific symptoms or have other questions? Just ask me anything!"

/-- `WhatsAppBot._get_emergency_message`. -/
def _get_emergency_message : String :=
  "🚨 EMERGENCY RESPONSE 🚨\n\nIf this is a medical emergency:\n📞 Call 911 immediately\n🏥 Go to the nearest emergency room\n\nFor urgent but non-emergency care:\n📞 Call your doctor\n🏥 Visit an urgent care center\n\nI\x27m an AI assistant and cannot provide emergency medical care. Please seek immediate professional help for serious medical situations.\n\nStay safe! 🙏"

/-- `WhatsAppBot._handle_message`: dispatch on the selected branch.  The
default branch delegates to `WhatsAppBot._analyze_message` (and from there to
`EnhancedAI`); its reply is abstracted as the `analysisReply` argument, so
the theorems can state that greeting messages never depend on it. -/
def _handle_message (message : String) (analysisReply : String) : String :=
  match handleAction message with
  | HandlerAction.welcome => _get_welcome_message
  | HandlerAction.helpMenu => _get_help_message
  | HandlerAction.healthTips => _get_health_tips_message
  | HandlerAction.emergencyInfo => _get_emergency_message
  | HandlerAction.aiAnalysis => analysisReply

/-! ## Spec-side definitions

These follow the wording of `spec.md` (not the Python source); refinement
theorems below compare them with the source-side definitions. -/

/-- Number of phrases of `indicators` occurring as substrings of `message`. -/
def countMatches (indicators : List String) (message : String) : Nat :=
  (indicators.filter fun i => pyIn i message).length

/-- Spec §4.3: "for every (category, severity-level, indicator phrase) triple
in the knowledge base, if the indicator phrase occurs as a substring of the
text, add a fixed weight: mild=+1, moderate=+3, severe=+5". -/
def specIndicatorScore (message : String) : Nat :=
  (symptom_keywords.map fun cat =>
    countMatches cat.mild message * 1
      + countMatches cat.moderate message * 3
      + countMatches cat.severe message * 5).sum

/-- Spec §4.3 threshold map: "score ≥ 8 → severe; 4 ≤ score < 8 → moderate;
score < 4 → mild". -/
def specSeverityOfScore (score : Nat) : String :=
  if 8 ≤ score then "severe"
  else if 4 ≤ score ∧ score < 8 then "moderate"
  else "mild"

/-- Spec §4.3 urgency map: "severe→high, moderate→medium, mild→low". -/
def specUrgencyOfSeverity (severity : String) : String :=
  if severity = "severe" then "high"
  else if severity = "moderate" then "medium"
  else "low"

/-- Spec §4.5 confidence formula, as a pure function of the symptom count and
the whitespace-token count of the message. -/
def specConfidence (symptom_count word_count : Nat) : ℚ :=
  pyMin (6 / 10 + pyMin ((symptom_count : ℚ) * (1 / 10)) (3 / 10)
        + pyMin ((word_count : ℚ) * (1 / 100)) (1 / 10))
    (95 / 100)

/-! ## Helper lemmas -/

/-- A fold that conditionally appends singletons is the filter of the list. -/
theorem foldl_filterAppend {α : Type} (p : α → Bool) :
    ∀ (l : List α) (acc : List α),
      l.foldl (fun a x => if p x then a ++ [x] else a) acc = acc ++ l.filter p := by
  intro l
  induction l with
  | nil => intro acc; simp
  | cons x xs ih =>
    intro acc
    by_cases h : p x = true <;>
      simp [List.foldl, List.filter_cons, h, ih]

/-- A fold that conditionally appends images is the mapped filter of the
list (propositional condition). -/
theorem foldl_filterAppendMap {α β : Type} (p : α → Prop) [DecidablePred p] (g : α → β) :
    ∀ (l : List α) (acc : List β),
      l.foldl (fun a x => if p x then a ++ [g x] else a) acc
        = acc ++ (l.filter fun x => decide (p x)).map g := by
  intro l
  induction l with
  | nil => intro acc; simp
  | cons x xs ih =>
    intro acc
    by_cases h : p x <;>
      simp [List.foldl, List.filter_cons, h, ih]

/-- The keyword pass of `_extract_symptoms` is the filter of the flattened
keyword list. -/
theorem keywordPass_eq_filter (message : String) :
    keywordPass message = allKeywords.filter fun k => pyIn k message := by
  have main : ∀ (cats : List SymptomCategory) (acc : List String),
      cats.foldl
          (fun acc cat =>
            cat.keywords.foldl (fun a k => if pyIn k message then a ++ [k] else a) acc)
          acc
        = acc ++ (cats.flatMap fun c => c.keywords).filter fun k => pyIn k message := by
    intro cats
    induction cats with
    | nil => intro acc; simp
    | cons c cs ih =>
      intro acc
      simp only [List.foldl]
      rw [ih, foldl_filterAppend]
      simp [List.filter_append]
  simpa [keywordPass, allKeywords] using main symptom_keywords []

/-- The flattened keyword list has no duplicates. -/
theorem allKeywords_nodup : allKeywords.Nodup := by decide

/-- Evaluating one indicator-list scan: the accumulator grows by the number
of matching phrases times the weight. -/
theorem addIndicators_eq (message : String) (w : Nat) :
    ∀ (indicators : List String) (acc : Nat),
      addIndicators message acc indicators w
        = acc + countMatches indicators message * w := by
  intro indicators
  induction indicators with
  | nil => intro acc; simp [addIndicators, countMatches]
  | cons i is ih =>
    intro acc
    have h1 : addIndicators message acc (i :: is) w
        = addIndicators message (if pyIn i message then acc + w else acc) is w := rfl
    rw [h1, ih]
    by_cases h : pyIn i message = true
    · simp [countMatches, List.filter_cons, h, Nat.succ_mul]
      ring
    · simp [countMatches, List.filter_cons, h]

/-- The triple indicator loop of `_assess_severity` computes the spec's
per-triple weighted sum. -/
theorem severityIndicatorScore_eq (message : String) :
    severityIndicatorScore message = specIndicatorScore message := by
  have main : ∀ (cats : List SymptomCategory) (acc : Nat),
      cats.foldl
          (fun acc cat =>
            addIndicators message
              (addIndicators message (addIndicators message acc cat.mild 1) cat.moderate 3)
              cat.severe 5)
          acc
        = acc + (cats.map fun cat =>
            countMatches cat.mild message * 1 + countMatches cat.moderate message * 3
              + countMatches cat.severe message * 5).sum := by
    intro cats
    induction cats with
    | nil => intro acc; simp
    | cons c cs ih =>
      intro acc
      simp only [List.foldl, List.map_cons, List.sum_cons]
      rw [ih, addIndicators_eq, addIndicators_eq, addIndicators_eq]
      ring
  simpa [severityIndicatorScore, specIndicatorScore] using main symptom_keywords 0

/-- The pattern pass only extends the symptom list. -/
theorem addCaptures_sub (caps : List String) :
    ∀ acc : List String, acc <+: addCaptures acc caps := by
  induction caps with
  | nil => intro acc; exact List.prefix_rfl
  | cons c cs ih =>
    intro acc
    have h1 : addCaptures acc (c :: cs)
        = addCaptures
            (if 2 < (pyStrip c).length ∧ pyStrip c ∉ acc then acc ++ [pyStrip c] else acc)
            cs := rfl
    rw [h1]
    have h2 : acc <+:
        (if 2 < (pyStrip c).length ∧ pyStrip c ∉ acc then acc ++ [pyStrip c] else acc) := by
      by_cases hc : 2 < (pyStrip c).length ∧ pyStrip c ∉ acc
      · rw [if_pos hc]; exact List.prefix_append acc [pyStrip c]
      · rw [if_neg hc]
    exact h2.trans (ih _)

/-- The pattern pass preserves freedom from duplicates (it checks membership
before appending). -/
theorem addCaptures_nodup (caps : List String) :
    ∀ acc : List String, acc.Nodup → (addCaptures acc caps).Nodup := by
  induction caps with
  | nil => intro acc h; exact h
  | cons c cs ih =>
    intro acc h
    have h1 : addCaptures acc (c :: cs)
        = addCaptures
            (if 2 < (pyStrip c).length ∧ pyStrip c ∉ acc then acc ++ [pyStrip c] else acc)
            cs := rfl
    rw [h1]
    apply ih
    by_cases hc : 2 < (pyStrip c).length ∧ pyStrip c ∉ acc
    · rw [if_pos hc]
      exact h.append (List.nodup_singleton _) (List.disjoint_singleton.2 hc.2)
    · rw [if_neg hc]; exact h

/-- `_assess_urgency` never returns the reserved label `"emergency"`. -/
theorem assess_urgency_ne_emergency (severity : String) (symptoms : List String) :
    _assess_urgency severity symptoms ≠ "emergency" := by
  unfold _assess_urgency
  split_ifs <;> decide

/-- `pyMin` agrees with the lattice `min` on ℚ. -/
theorem pyMin_eq_min (a b : ℚ) : pyMin a b = min a b := by
  unfold pyMin
  by_cases h : a ≤ b
  · rw [if_pos h, min_eq_left h]
  · rw [if_neg h, min_eq_right (le_of_not_le h)]

/-- A non-emergency recommendation list is never empty: the general-advice
entries are always appended before deduplication. -/
theorem generate_recommendations_ne_nil (symptoms : List String) (severity : String) :
    _generate_recommendations symptoms severity ≠ [] := by
  unfold _generate_recommendations
  simp only [pyListSet, ne_eq, List.dedup_eq_nil, List.append_eq_nil]
  intro h
  exact absurd h.2 (by decide)

/-! ## Claims -/

/-- Claim C1, counterexample: the claim asserts `urgency == "emergency"` iff
`is_emergency == true`, but `_create_emergency_response` never sets
`is_emergency`, so on the emergency input `"chest pain"` the urgency is
`"emergency"` while `is_emergency` is still `False`. -/
theorem c1_counterexample :
    (analyze_message "chest pain").urgency = "emergency"
    ∧ (analyze_message "chest pain").is_emergency = false := by decide

/-- Claim C1, amended: for every input message, `urgency == "emergency"` iff
the lowercased message contains some emergency phrase as a substring, and in
that case `symptoms`, `severity`, `confidence` and `potential_conditions`
take the fixed emergency values — but `is_emergency` is `False` for every
input (the code never sets it), so the claimed equivalence with
`is_emergency` does not hold. -/
theorem c1_amended (message : String) :
    ((analyze_message message).urgency = "emergency"
      ↔ _is_emergency (pyNormalize message) = true)
    ∧ (analyze_message message).is_emergency = false
    ∧ (_is_emergency (pyNormalize message) = true →
        (analyze_message message).symptoms = ["emergency situation detected"]
        ∧ (analyze_message message).severity = "severe"
        ∧ (analyze_message message).confidence = 9 / 10
        ∧ (analyze_message message).potential_conditions = ["medical emergency"]) := by
  by_cases h : _is_emergency (pyNormalize message) = true
  · refine ⟨?_, ?_, ?_⟩ <;> simp [analyze_message, h, _create_emergency_response]
  · have hb : _is_emergency (pyNormalize message) = false := by
      simpa using h
    refine ⟨?_, ?_, ?_⟩
    · simp only [analyze_message, hb, if_false, Bool.false_eq_true, iff_false]
      exact assess_urgency_ne_emergency _ _
    · simp [analyze_message, hb]
    · intro hcontra
      rw [hcontra] at hb
      cases hb

/-- Claim C1, witness: the amended theorem applied at `"chest pain"`. -/
theorem c1_amended_witness :
    _is_emergency (pyNormalize "chest pain") = true
    ∧ ((analyze_message "chest pain").symptoms = ["emergency situation detected"]
        ∧ (analyze_message "chest pain").severity = "severe"
        ∧ (analyze_message "chest pain").confidence = 9 / 10
        ∧ (analyze_message "chest pain").potential_conditions = ["medical emergency"]) :=
  ⟨by decide, (c1_amended "chest pain").2.2 (by decide)⟩

/-- Claim C2: in the non-emergency path, severity is the spec's threshold map
of the accumulated indicator score plus the symptom count, and urgency is
exactly the severe→high / moderate→medium / mild→low function of severity,
with no other dependence on the symptoms or text. -/
theorem c2_severity_urgency (message : String) (symptoms : List String) :
    _assess_severity message symptoms
        = specSeverityOfScore (specIndicatorScore message + symptoms.length)
    ∧ _assess_urgency (_assess_severity message symptoms) symptoms
        = specUrgencyOfSeverity (_assess_severity message symptoms)
    ∧ ∀ other : List String,
        _assess_urgency (_assess_severity message symptoms) other
          = _assess_urgency (_assess_severity message symptoms) symptoms := by
  refine ⟨?_, rfl, fun other => rfl⟩
  simp only [_assess_severity, severityIndicatorScore_eq, specSeverityOfScore]
  split_ifs <;> first | rfl | omega

/-- Claim C3, counterexample: on the claim's own example input, exactly one
defining phrase of the flu condition (`"fever"`, of fever / body aches /
fatigue / cough) occurs in any extracted symptom, yet `"Flu"` IS in
`potential_conditions`: the code counts matching (phrase, symptom) pairs,
and `"fever"` matches two extracted symptoms (`"fever"` and
`"a severe headache and fever"`). -/
theorem c3_counterexample :
    "Flu" ∈ (analyze_message "I have a severe headache and fever").potential_conditions
    ∧ ((["fever", "body aches", "fatigue", "cough"].filter fun p =>
          (analyze_message "I have a severe headache and fever").symptoms.any fun s =>
            pyIn (pyLower p) (pyLower s)).length = 1) := by decide

/-- Claim C3, amended: a condition's display name is included exactly when
the number of matching (defining phrase, extracted symptom) PAIRS — each
defining phrase counted once per extracted symptom that contains it — is at
least 2; consequently on the input `"I have a severe headache and fever"`
the name `"Flu"` IS included. -/
theorem c3_amended :
    (∀ symptoms : List String,
      _identify_conditions symptoms
        = ((common_conditions.filter fun c => decide (2 ≤ matchCount c.symptoms symptoms)).map
            fun c => pyTitle (pyReplaceUnderscore c.name)))
    ∧ "Flu" ∈ (analyze_message "I have a severe headache and fever").potential_conditions := by
  constructor
  · intro symptoms
    simpa [_identify_conditions] using
      foldl_filterAppendMap (fun c => 2 ≤ matchCount c.symptoms symptoms)
        (fun c => pyTitle (pyReplaceUnderscore c.name)) common_conditions []
  · decide

/-- Claim C4, counterexample: the message
`"i have sneezing and a runny nose"` contains no knowledge-base symptom
keyword and no emergency phrase, yet the pattern pass extracts
`"sneezing and a runny nose"`, which matches two defining phrases of the
cold condition, so `potential_conditions` is `["Cold"]`, not empty. -/
theorem c4_counterexample :
    (allKeywords.all fun k => !(pyIn k "i have sneezing and a runny nose")) = true
    ∧ (emergency_keywords.all fun e => !(pyIn e "i have sneezing and a runny nose")) = true
    ∧ (analyze_message "i have sneezing and a runny nose").potential_conditions = ["Cold"] := by
  decide

/-- Claim C4, amended: for every message containing no knowledge-base symptom
keyword and no emergency phrase, the recommendations are non-empty (the
general-advice entries are always appended); `potential_conditions` is empty
whenever the extracted symptom list is empty, but keyword-free messages can
still acquire conditions through pattern-pass captures. -/
theorem c4_amended (message : String)
    (_hk : (allKeywords.all fun k => !(pyIn k (pyNormalize message))) = true)
    (he : (emergency_keywords.all fun e => !(pyIn e (pyNormalize message))) = true) :
    (analyze_message message).recommendations ≠ []
    ∧ ((analyze_message message).symptoms = []
        → (analyze_message message).potential_conditions = []) := by
  have hem : _is_emergency (pyNormalize message) = false := by
    simp only [List.all_eq_true, Bool.not_eq_true'] at he
    simp only [_is_emergency, List.any_eq_false, Bool.not_eq_true]
    exact he
  constructor
  · have hr : (analyze_message message).recommendations
        = _generate_recommendations (_extract_symptoms (pyNormalize message))
            (_assess_severity (pyNormalize message) (_extract_symptoms (pyNormalize message))) := by
      simp [analyze_message, hem]
    rw [hr]
    exact generate_recommendations_ne_nil _ _
  · intro hsym
    have hs : (analyze_message message).symptoms = _extract_symptoms (pyNormalize message) := by
      simp [analyze_message, hem]
    have hc : (analyze_message message).potential_conditions
        = _identify_conditions (_extract_symptoms (pyNormalize message)) := by
      simp [analyze_message, hem]
    rw [hs] at hsym
    rw [hc, hsym]
    decide

/-- Claim C4, witness: the amended theorem applied at the keyword-free
message `"zzz"`. -/
theorem c4_amended_witness :
    (allKeywords.all fun k => !(pyIn k (pyNormalize "zzz"))) = true
    ∧ (analyze_message "zzz").recommendations ≠ []
    ∧ (analyze_message "zzz").potential_conditions = [] :=
  ⟨by decide, (c4_amended "zzz" (by decide) (by decide)).1,
    (c4_amended "zzz" (by decide) (by decide)).2 (by decide)⟩

/-- Claim C5: the non-emergency confidence equals
`min(0.6 + min(0.1·symptom_count, 0.3) + min(0.01·word_count, 0.1), 0.95)`,
always lies in [0.6, 0.95], and is non-strictly increasing in the symptom
count and in the word count. -/
theorem c5_confidence :
    (∀ (symptoms : List String) (message : String),
      _calculate_confidence symptoms message
        = specConfidence symptoms.length (pySplit message).length)
    ∧ (∀ s w : Nat, 6 / 10 ≤ specConfidence s w ∧ specConfidence s w ≤ 95 / 100)
    ∧ (∀ s₁ s₂ w : Nat, s₁ ≤ s₂ → specConfidence s₁ w ≤ specConfidence s₂ w)
    ∧ (∀ s w₁ w₂ : Nat, w₁ ≤ w₂ → specConfidence s w₁ ≤ specConfidence s w₂) := by
  refine ⟨fun symptoms message => rfl, fun s w => ⟨?_, ?_⟩, ?_, ?_⟩
  · have h1 : (0 : ℚ) ≤ min ((s : ℚ) * (1 / 10)) (3 / 10) :=
      le_min (by positivity) (by norm_num)
    have h2 : (0 : ℚ) ≤ min ((w : ℚ) * (1 / 100)) (1 / 10) :=
      le_min (by positivity) (by norm_num)
    simp only [specConfidence, pyMin_eq_min]
    exact le_min (by linarith) (by norm_num)
  · simp only [specConfidence, pyMin_eq_min]
    exact min_le_right _ _
  · intro s₁ s₂ w h
    simp only [specConfidence, pyMin_eq_min]
    have hc : (s₁ : ℚ) ≤ (s₂ : ℚ) := by exact_mod_cast h
    refine min_le_min (add_le_add (add_le_add le_rfl ?_) le_rfl) le_rfl
    exact min_le_min (mul_le_mul_of_nonneg_right hc (by norm_num)) le_rfl
  · intro s w₁ w₂ h
    simp only [specConfidence, pyMin_eq_min]
    have hc : (w₁ : ℚ) ≤ (w₂ : ℚ) := by exact_mod_cast h
    refine min_le_min (add_le_add le_rfl ?_) le_rfl
    exact min_le_min (mul_le_mul_of_nonneg_right hc (by norm_num)) le_rfl

/-- Claim C5, witness: the monotonicity parts applied at concrete counts. -/
theorem c5_confidence_witness :
    ((0 : Nat) ≤ 2 ∧ specConfidence 0 7 ≤ specConfidence 2 7)
    ∧ ((3 : Nat) ≤ 9 ∧ specConfidence 2 3 ≤ specConfidence 2 9) :=
  ⟨⟨by decide, c5_confidence.2.2.1 0 2 7 (by decide)⟩,
   ⟨by decide, c5_confidence.2.2.2 2 3 9 (by decide)⟩⟩

/-- Claim C6: for every input message the extracted symptom list has length
at most 10 and no duplicates; it is the keyword pass (the filter of the
flattened keyword list, in category-then-keyword order) extended by the
pattern-pass captures (stripped, kept only when longer than 2 characters and
not already present), truncated to the first 10 entries, with the keyword
pass as a prefix. -/
theorem c6_extract (message : String) :
    (_extract_symptoms message).length ≤ 10
    ∧ (_extract_symptoms message).Nodup
    ∧ _extract_symptoms message
        = (addCaptures (keywordPass message) (patternCaptures message)).take 10
    ∧ keywordPass message = allKeywords.filter (fun k => pyIn k message)
    ∧ keywordPass message <+: addCaptures (keywordPass message) (patternCaptures message) := by
  refine ⟨List.length_take_le _ _, ?_, rfl, keywordPass_eq_filter message, addCaptures_sub _ _⟩
  have hkw : (keywordPass message).Nodup := by
    rw [keywordPass_eq_filter]
    exact allKeywords_nodup.filter _
  exact (addCaptures_nodup (patternCaptures message) (keywordPass message) hkw).sublist
    (List.take_sublist _ _)

/-- Claim C7: the empty input yields (totally, without any fault) an analysis
with no symptoms, mild severity, low urgency and confidence exactly 0.6. -/
theorem c7_empty :
    (analyze_message "").symptoms = []
    ∧ (analyze_message "").severity = "mild"
    ∧ (analyze_message "").urgency = "low"
    ∧ (analyze_message "").confidence = 6 / 10 := by
  refine ⟨by decide, by decide, by decide, ?_⟩
  have hem : _is_emergency (pyNormalize "") = false := by decide
  have hc : (analyze_message "").confidence
      = _calculate_confidence (_extract_symptoms (pyNormalize "")) (pyNormalize "") := by
    simp [analyze_message, hem]
  have h1 : _extract_symptoms (pyNormalize "") = [] := by decide
  have h2 : pySplit (pyNormalize "") = [] := by decide
  rw [hc]
  unfold _calculate_confidence
  rw [h1, h2]
  norm_num [pyMin]

/-- Claim C8: whenever the Gemini delegate is unavailable or its call fails,
`_handle_general_question` returns the fixed fallback message (and, being a
total function, propagates no exception). -/
theorem c8_fallback (gemini_available : Bool)
    (generate : String → Except String String) (message user_name : String)
    (h : gemini_available = false
      ∨ ∃ e, generate (mkGeminiPrompt message) = Except.error e) :
    _handle_general_question gemini_available generate message user_name
      = _get_fallback_general_response user_name := by
  rcases h with h | ⟨e, he⟩
  · simp [_handle_general_question, h]
  · cases gemini_available
    · simp [_handle_general_question]
    · simp [_handle_general_question, he]

/-- Claim C8, witness: the theorem applied to an unavailable delegate and to
a failing delegate. -/
theorem c8_fallback_witness :
    _handle_general_question false (fun _ => Except.error "boom") "hello" "Sam"
        = _get_fallback_general_response "Sam"
    ∧ _handle_general_question true (fun _ => Except.error "boom") "hello" "Sam"
        = _get_fallback_general_response "Sam" :=
  ⟨c8_fallback false (fun _ => Except.error "boom") "hello" "Sam" (Or.inl rfl),
   c8_fallback true (fun _ => Except.error "boom") "hello" "Sam" (Or.inr ⟨"boom", rfl⟩)⟩

/-- Claim C9: there is an input (`"seizure"`) containing an emergency phrase
of the triage core's set for which the health-relatedness pre-classifier
returns false, so `EnhancedAI.analyze_message` routes it to the
general-question path and the triage pipeline (including the emergency
detector) never runs on it. -/
theorem c9_misrouted_emergency :
    ∃ message : String,
      _is_emergency message = true
      ∧ is_health_related message = false
      ∧ routeOf message = AIRoute.general := by
  refine ⟨"seizure", ?_, ?_, ?_⟩ <;> decide

/-- Claim C10: any message whose lowercased, trimmed text contains one of
`hi` / `hello` / `hey` / `start` as a substring makes `_handle_message`
return the fixed welcome message, independently of the AI-analysis reply;
the greeting branch precedes the emergency-keyword branch, so such messages
never reach the triage core. -/
theorem c10_greeting (message analysisReply : String)
    (h : (greeting_words.any fun greeting => pyIn greeting (pyNormalize message)) = true) :
    _handle_message message analysisReply = _get_welcome_message
    ∧ handleAction message = HandlerAction.welcome := by
  have ha : handleAction message = HandlerAction.welcome := by
    simp [handleAction, h]
  exact ⟨by simp [_handle_message, ha], ha⟩

/-- Claim C10, witness: the theorem applied at `"This is chest pain"`, which
contains the greeting substring `"hi"` (inside `"This"`) and an emergency
phrase, yet yields the welcome message. -/
theorem c10_greeting_witness :
    (greeting_words.any fun greeting => pyIn greeting (pyNormalize "This is chest pain")) = true
    ∧ pyIn "chest pain" (pyNormalize "This is chest pain") = true
    ∧ _handle_message "This is chest pain" "ANALYSIS" = _get_welcome_message :=
  ⟨by decide, by decide,
    (c10_greeting "This is chest pain" "ANALYSIS" (by decide)).1⟩
